import Mathlib

/-!
Verification of the two libsigrokdecode protocol decoders in this repository:
the ST STM32 JTAG decoder (`decoders/jtag_stm32/jtag_stm32.py`) and the
EM4100 RFID decoder (`decoders/em4100/pd.py`).

Both decoders are shallowly embedded: Python bit strings become `List Bool`
(leftmost character first, so list head = leftmost = most significant bit,
matching the source's documented convention that the right-most character is
the LSB), Python sample positions and pulse lengths become `ℚ` (Python 3 true
division produces exact dyadic values here), Python `int()` truncation becomes
`pyInt`, and Python exceptions become an explicit error component of the
result.  Mutable decoder objects become explicit state records threaded
through transition functions.
-/

namespace Jtag

/-- Kinds of Python runtime exceptions the decoder can raise. -/
inductive PyError where
  | typeError
  | indexError
  | keyError
  | valueError
  | attributeError
  | invalidState
deriving DecidableEq, Repr

/-- Render one bit the way Python renders the int 0 or 1 (and the characters
of a bit string). -/
def bitStr (b : Bool) : String := if b then "1" else "0"

/-- A Python bit string rendered back to a `String` of 0 and 1 characters. -/
def bitsToStr (bs : List Bool) : String :=
  String.mk (bs.map (fun b => if b then '1' else '0'))

/-- Python `int('0b' + bits, 2)`: most-significant bit first. -/
def binToNat (bs : List Bool) : ℕ :=
  bs.foldl (fun acc b => acc * 2 + (if b then 1 else 0)) 0

/-- Python `'%x' %% n`: lowercase hexadecimal rendering of a nonnegative int. -/
def natHexLower (n : ℕ) : String := String.mk (Nat.toDigits 16 n)

/-- Python slice `bits[-k:]` (with clamping for short inputs). -/
def lastN (k : ℕ) (l : List Bool) : List Bool := l.drop (l.length - k)

/-- Python slice `bits[:-k]` (with clamping for short inputs). -/
def dropLastN (k : ℕ) (l : List Bool) : List Bool := l.take (l.length - k)

/-- Python slice `bits[-3:-1]` (with clamping for short inputs). -/
def sliceA (l : List Bool) : List Bool :=
  (l.drop (l.length - 3)).take (l.length - 1 - (l.length - 3))

/-- The instruction-register table `ir` of jtag_stm32.py: 4-bit patterns
(most significant bit first) mapped to register name and size. -/
def ir (k : List Bool) : Option (String × ℕ) :=
  if k = [true, true, true, true] then some ("BYPASS", 1)
  else if k = [true, true, true, false] then some ("IDCODE", 32)
  else if k = [true, false, true, false] then some ("DPACC", 35)
  else if k = [true, false, true, true] then some ("APACC", 35)
  else if k = [true, false, false, false] then some ("ABORT", 35)
  else none

/-- The 32-bit debug port register table `reg` of jtag_stm32.py, keyed by the
two address bits A[3:2]. `none` models a Python `KeyError`. -/
def reg (k : List Bool) : Option String :=
  if k = [false, false] then some "Reserved"
  else if k = [false, true] then some "DP CTRL/STAT"
  else if k = [true, false] then some "DP SELECT"
  else if k = [true, true] then some "DP RDBUFF"
  else none

/-- The acknowledge table `ack_val` of jtag_stm32.py, keyed by ACK[2:0]. -/
def ack_val (k : List Bool) : Option String :=
  if k = [false, false, false] then some "Reserved"
  else if k = [false, false, true] then some "WAIT"
  else if k = [false, true, false] then some "OK/FAULT"
  else if k = [false, true, true] then some "Reserved"
  else if k = [true, false, false] then some "Reserved"
  else if k = [true, false, true] then some "Reserved"
  else if k = [true, true, false] then some "Reserved"
  else if k = [true, true, true] then some "Reserved"
  else none

/-- A handler returns the annotations it emitted before returning or before
raising, plus the exception if one was raised.  (The JTAG decoder passes the
batch start and end positions unchanged to every annotation, so positions are
not modelled.) -/
abbrev HandlerResult := List String × Option PyError

/-- `handle_reg_bypass` of jtag_stm32.py. -/
def handle_reg_bypass (bits : List Bool) : HandlerResult :=
  (["BYPASS: " ++ bitsToStr bits], none)

/-- `handle_reg_idcode` of jtag_stm32.py. `int('0b' + bits, 2)` raises
`ValueError` when `bits` is empty. -/
def handle_reg_idcode (bits : List Bool) : HandlerResult :=
  if bits = [] then ([], some PyError.valueError)
  else (["IDCODE: 0x" ++ natHexLower (binToNat bits)], none)

/-- `handle_reg_dpacc` of jtag_stm32.py, preserving the source's order of
emission and of the operations that can raise: `bits[-1]` raises `IndexError`
on an empty string, `int('0b' + data, 2)` raises `ValueError` when the data
slice is empty, and the `reg` and `ack_val` table lookups raise `KeyError`
when the sliced key is absent. -/
def handle_reg_dpacc (bits : List Bool) : HandlerResult :=
  let ann1 := "DPACC: " ++ bitsToStr bits
  let data := dropLastN 3 bits
  let a := sliceA bits
  match bits.getLast? with
  | none => ([ann1], some PyError.indexError)
  | some rnw =>
    if data = [] then ([ann1], some PyError.valueError)
    else
      let data_hex := "0x" ++ natHexLower (binToNat data)
      let r := if rnw = true then "Read request" else "Write request"
      match reg a with
      | none => ([ann1], some PyError.keyError)
      | some regname =>
        let s2 := "DATA: " ++ data_hex ++ ", A: " ++ regname ++ ", RnW: " ++ r
        match ack_val (lastN 3 bits) with
        | none => ([ann1, s2], some PyError.keyError)
        | some ack_meaning =>
          let s3 := "DATA: " ++ data_hex ++ ", ACK: " ++ ack_meaning
          ([ann1, s2, s3], none)

/-- `handle_reg_apacc` of jtag_stm32.py (identical to `handle_reg_dpacc`
except for the first annotation's label). -/
def handle_reg_apacc (bits : List Bool) : HandlerResult :=
  let ann1 := "APACC: " ++ bitsToStr bits
  let data := dropLastN 3 bits
  let a := sliceA bits
  match bits.getLast? with
  | none => ([ann1], some PyError.indexError)
  | some rnw =>
    if data = [] then ([ann1], some PyError.valueError)
    else
      let data_hex := "0x" ++ natHexLower (binToNat data)
      let r := if rnw = true then "Read request" else "Write request"
      match reg a with
      | none => ([ann1], some PyError.keyError)
      | some regname =>
        let s2 := "DATA: " ++ data_hex ++ ", A: " ++ regname ++ ", RnW: " ++ r
        match ack_val (lastN 3 bits) with
        | none => ([ann1, s2], some PyError.keyError)
        | some ack_meaning =>
          let s3 := "DATA: " ++ data_hex ++ ", ACK: " ++ ack_meaning
          ([ann1, s2, s3], none)

/-- `handle_reg_abort` of jtag_stm32.py.  The source reads `bits[0]` — the
leftmost character of the bit string, i.e. the most significant bit under the
module's right-most-is-LSB convention — and checks `bits[:-1]` (all but the
rightmost character) against 31 zero characters for the reserved-bit warning.
`bits[0]` raises `IndexError` on an empty string. -/
def handle_reg_abort (bits : List Bool) : HandlerResult :=
  match bits.head? with
  | none => ([], some PyError.indexError)
  | some b0 =>
    let a := if b0 = true then "" else "No "
    let s := "DAPABORT = " ++ bitStr b0 ++ ": " ++ a ++ "DAP abort generated"
    if bits.dropLast ≠ List.replicate 31 false then
      ([s, "WARNING: DAPABORT[31:1] reserved!"], none)
    else
      ([s], none)

/-- `handle_reg_unknown` of jtag_stm32.py.  The source evaluates
`'Unknown instruction: ' %% bits` — a format string with no conversion
specifier applied to a nonempty argument — which raises `TypeError` before
the `put` call, so no annotation is emitted. -/
def handle_reg_unknown (bits : List Bool) : HandlerResult :=
  let _ := bits
  ([], some PyError.typeError)

/-- The `getattr(self, 'handle_reg_%s' %% self.state.lower())` dynamic
dispatch.  A state name outside the handler set would raise
`AttributeError` (unreachable for the states the selector can produce). -/
def handlerFor (state : String) : List Bool → HandlerResult :=
  if state = "BYPASS" then handle_reg_bypass
  else if state = "IDCODE" then handle_reg_idcode
  else if state = "DPACC" then handle_reg_dpacc
  else if state = "APACC" then handle_reg_apacc
  else if state = "ABORT" then handle_reg_abort
  else if state = "UNKNOWN" then handle_reg_unknown
  else fun _ => ([], some PyError.attributeError)

/-- Result of one `decode` call: the new value of `self.state`, the
annotations emitted, and the exception if one escaped.  When a handler
raises, the exception propagates before the `self.state = 'IDLE'`
assignment, so the state is left unchanged. -/
structure JResult where
  state : String
  anns : List String
  err : Option PyError
deriving DecidableEq, Repr

/-- The `decode` state machine of jtag_stm32.py.  `val` is the bit string of
the command (leftmost character = list head).  In the source the `'BYPASS'`
case is written `self.state in ('BYPASS')`, a membership test in the bare
string `'BYPASS'`; for every state name the selector can produce this is
equivalent to equality with `"BYPASS"`, which is how it is modelled here. -/
def jtagDecode (state cmd : String) (val : List Bool) : JResult :=
  if state = "IDLE" then
    if cmd ≠ "IR TDI" then ⟨state, [], none⟩
    else
      let st2 := ((ir (lastN 4 val)).getD ("UNKNOWN", 0)).1
      ⟨st2, ["IR: " ++ st2], none⟩
  else if state = "BYPASS" then
    if cmd ≠ "DR TDI" then ⟨state, [], none⟩
    else
      match handlerFor state val with
      | (anns, none) => ⟨"IDLE", anns, none⟩
      | (anns, some e) => ⟨state, anns, some e⟩
  else if state ∈ ["IDCODE", "DPACC", "APACC", "ABORT", "UNKNOWN"] then
    if ¬(cmd = "DR TDI" ∨ cmd = "DR TDO") then ⟨state, [], none⟩
    else
      match handlerFor state val with
      | (anns, none) => ⟨"IDLE", anns, none⟩
      | (anns, some e) => ⟨state, anns, some e⟩
  else
    ⟨state, [], some PyError.invalidState⟩

/-- The 32-bit vector with only bit 0 (the rightmost character) set. -/
def abortBit0 : List Bool := List.replicate 31 false ++ [true]

/-- The 32-bit vector with bit 31 (the leftmost character) and bit 0 set. -/
def abortBit31And0 : List Bool := [true] ++ List.replicate 30 false ++ [true]

end Jtag

namespace EM4100

/-- Python `int()` applied to an exact value: truncation toward zero. -/
def pyInt (q : ℚ) : ℤ := if 0 ≤ q then ⌊q⌋ else ⌈q⌉

/-- Python `str()` of a bit held as the int 0 or 1. -/
def bitStr (b : Bool) : String := if b then "1" else "0"

/-- The int value of a bit (bits travel as the Python ints 0 and 1; they are
modelled as `Bool` with 0 = `false` and 1 = `true`). -/
def bitVal (b : Bool) : ℕ := if b then 1 else 0

/-- Python `'%X' %% n`: uppercase hexadecimal rendering. -/
def natHexUpper (n : ℕ) : String :=
  String.mk ((Nat.toDigits 16 n).map Char.toUpper)

/-- One annotation as passed to `self.put`: start and end sample (already
through `int()` in the source), annotation class, and the text variants. -/
structure EAnn where
  ss : ℤ
  es : ℤ
  cls : ℕ
  txt : List String
deriving DecidableEq, Repr

/-- The six-element parity accumulator lists `data_col_parity` and
`col_parity` (Python lists of the ints 0/1, modelled as six booleans). -/
structure Par6 where
  a0 : Bool
  a1 : Bool
  a2 : Bool
  a3 : Bool
  a4 : Bool
  a5 : Bool
deriving DecidableEq, Repr

/-- The list `[0, 0, 0, 0, 0, 0]`. -/
def Par6.zero : Par6 := ⟨false, false, false, false, false, false⟩

/-- Python `l[i]` on a six-element list.  Indices above 5 would raise
`IndexError`; the decoder only ever indexes with `data_bits ∈ 0..5`. -/
def Par6.get (p : Par6) : ℕ → Bool
  | 0 => p.a0
  | 1 => p.a1
  | 2 => p.a2
  | 3 => p.a3
  | 4 => p.a4
  | _ => p.a5

/-- Python `l[i] = b` on a six-element list (same index caveat). -/
def Par6.set (p : Par6) (i : ℕ) (b : Bool) : Par6 :=
  match i with
  | 0 => { p with a0 := b }
  | 1 => { p with a1 := b }
  | 2 => { p with a2 := b }
  | 3 => { p with a3 := b }
  | 4 => { p with a4 := b }
  | _ => { p with a5 := b }

/-- The mutable fields of the EM4100 `Decoder` object, in the order of
`__init__`.  `polarity` is created later by `metadata`; it is placed last
with a dummy initial value (no code path reads it before `metadata` has run,
since `decode` insists on a samplerate, which only `metadata` sets). -/
structure EMState where
  samplerate : Option ℚ
  oldpin : Option Bool
  last_samplenum : Option ℕ
  lastlast_samplenum : Option ℕ
  last_edge : ℕ
  bit_width : ℚ
  halfbit_limit : ℚ
  oldpp : Bool
  oldpl : ℚ
  oldsamplenum : ℕ
  last_bit_pos : ℤ
  first_start : ℚ
  first_one : ℕ
  state : String
  data : ℕ
  data_bits : ℕ
  data_start : ℚ
  data_parity : Bool
  payload_cnt : ℕ
  data_col_parity : Par6
  col_parity : Par6
  polarity : Bool
deriving DecidableEq, Repr

/-- The state after `__init__`. -/
def initState : EMState :=
  { samplerate := none
    oldpin := none
    last_samplenum := none
    lastlast_samplenum := none
    last_edge := 0
    bit_width := 0
    halfbit_limit := 0
    oldpp := false
    oldpl := 0
    oldsamplenum := 0
    last_bit_pos := 0
    first_start := 0
    first_one := 0
    state := "HEADER"
    data := 0
    data_bits := 0
    data_start := 0
    data_parity := false
    payload_cnt := 0
    data_col_parity := Par6.zero
    col_parity := Par6.zero
    polarity := false }

/-- The decoder options (all delivered as strings by the host). -/
structure EMOptions where
  polarity : String
  datarate : String
  coilfreq : String
deriving DecidableEq, Repr

/-- The declared defaults: active-high, data rate 64, coil frequency 125000. -/
def defaultOptions : EMOptions := ⟨"active-high", "64", "125000"⟩

/-- The key `srd.SRD_CONF_SAMPLERATE`. -/
def SRD_CONF_SAMPLERATE : ℕ := 0

/-- Python `int()` applied to the decimal digit strings the host delivers
for the `coilfreq` and `datarate` options (the host only sends the declared
values, which consist of digits, so the `ValueError` path of `int()` is
unreachable and is not modelled). -/
def pyStrToNat (s : String) : ℕ :=
  s.data.foldl (fun n c => n * 10 + (c.toNat - 48)) 0

/-- The polarity resolution performed by `metadata`:
`0 if self.options['polarity'] == 'active-low' else 1`. -/
def polarityFlag (pol : String) : Bool :=
  if pol = "active-low" then false else true

/-- The `metadata` callback of pd.py.  `bit_width` and `halfbit_limit` are
recomputed on every call with Python 3 true division; the option strings go
through `int()` (the host only delivers the declared values, so the parse
cannot fail and `toNat?.getD 0` is faithful on all reachable inputs).
Reading `self.samplerate` while it is still `None` would raise `TypeError`;
the host sends the samplerate key, which sets it first. -/
def metadata (s : EMState) (opts : EMOptions) (key : ℕ) (value : ℚ) : EMState :=
  let samplerate2 := if key = SRD_CONF_SAMPLERATE then some value else s.samplerate
  let bw := samplerate2.getD 0 / ((pyStrToNat opts.coilfreq : ℕ) : ℚ) *
    ((pyStrToNat opts.datarate : ℕ) : ℚ)
  { s with
    samplerate := samplerate2
    bit_width := bw
    halfbit_limit := bw / 2 + bw / 4
    polarity := polarityFlag opts.polarity }

/-- `add_bit` of pd.py: the frame state machine.  One call consumes one
decoded symbol and returns the new state and the annotations emitted.

The source mutates `self` step by step; here each branch first computes the
values the source's sequence of mutations produces and then builds the
resulting state in one record.  In the HEADER branch, `fo` is `first_one`
after the conditional `+= 1`; the `== 0` test can only succeed when no
increment happened.  In the PAYLOAD branch, `cnt`, `dstart`, `d0`, `par0`
and `db` are the values of `payload_cnt`, `data_start`, `data`,
`data_parity` and `data_bits` after the `+= 1` and the group reset; the
three trailing accumulations (`data_parity ^= bit`,
`data_col_parity[self.data_bits] ^= bit`, `data = (data << 1) | bit`) run
after the emission block, which on a fifth bit has already reset
`data_bits` to 0 — so on a fifth bit the column xor lands in index 0.  The
TRAILER branch likewise stores `col_parity[db] = bit` before testing
`db == 5`. -/
def add_bit (s : EMState) (bit : Bool) (bit_start bit_stop : ℚ) :
    EMState × List EAnn :=
  if s.state = "HEADER" then
    if bit = true then
      let fo := if s.first_one > 0 then s.first_one + 1 else s.first_one
      if fo = 9 then
        ({ s with first_one := 0, state := "PAYLOAD" },
         [⟨pyInt s.first_start, pyInt bit_stop, 1, ["Header", "Head", "He", "H"]⟩])
      else if fo = 0 then
        ({ s with first_one := 1, first_start := bit_start }, [])
      else
        ({ s with first_one := fo }, [])
    else
      ({ s with first_one := 0 }, [])
  else if s.state = "PAYLOAD" then
    let cnt := s.payload_cnt + 1
    let dstart := if s.data_bits = 0 then bit_start else s.data_start
    let d0 := if s.data_bits = 0 then 0 else s.data
    let par0 := if s.data_bits = 0 then false else s.data_parity
    let db := s.data_bits + 1
    if db = 5 then
      let p_string := if par0 = bit then ["OK", "O"]
        else ["ERROR", "ERR", "ER", "E"]
      let anns : List EAnn :=
        [⟨pyInt dstart, pyInt bit_start, 2, ["Data", "Da", "D"]⟩,
         ⟨pyInt bit_start, pyInt bit_stop, 4, ["Parity", "Par", "Pa", "P"]⟩,
         ⟨pyInt dstart, pyInt bit_start, 3, [natHexUpper d0]⟩,
         ⟨pyInt bit_start, pyInt bit_stop, 6, p_string⟩]
      ({ s with
         state := if cnt = 50 then "TRAILER" else s.state
         payload_cnt := if cnt = 50 then 0 else cnt
         data_bits := 0
         data_start := dstart
         data_parity := par0 ^^ bit
         data_col_parity := s.data_col_parity.set 0 ((s.data_col_parity.get 0) ^^ bit)
         data := d0 * 2 + bitVal bit }, anns)
    else
      ({ s with
         payload_cnt := cnt
         data_bits := db
         data_start := dstart
         data_parity := par0 ^^ bit
         data_col_parity := s.data_col_parity.set db ((s.data_col_parity.get db) ^^ bit)
         data := d0 * 2 + bitVal bit }, [])
  else if s.state = "TRAILER" then
    let cnt := s.payload_cnt + 1
    let dstart := if s.data_bits = 0 then bit_start else s.data_start
    let d0 := if s.data_bits = 0 then 0 else s.data
    let par0 := if s.data_bits = 0 then false else s.data_parity
    let db := s.data_bits + 1
    let cp := s.col_parity.set db bit
    if db = 5 then
      let p_string :=
        if s.data_col_parity.get 1 = cp.get 1 then
          if s.data_col_parity.get 2 = cp.get 2 then
            if s.data_col_parity.get 3 = cp.get 3 then
              if s.data_col_parity.get 4 = cp.get 4 then ["OK", "O"]
              else ["ERROR", "ERR", "ER", "E"]
            else ["ERROR", "ERR", "ER", "E"]
          else ["ERROR", "ERR", "ER", "E"]
        else ["ERROR", "ERR", "ER", "E"]
      let anns : List EAnn :=
        [⟨pyInt dstart, pyInt bit_start, 4, ["Column parity", "Col par", "CP", "P"]⟩,
         ⟨pyInt bit_start, pyInt bit_stop, 4, ["Stop bit", "St bi", "SB", "S"]⟩,
         ⟨pyInt dstart, pyInt bit_start, 6, p_string⟩]
      if cnt = 5 then
        ({ s with
           state := "HEADER"
           payload_cnt := 0
           data_bits := 0
           data_start := dstart
           data := d0
           data_parity := par0
           data_col_parity := Par6.zero
           col_parity := Par6.zero }, anns)
      else
        ({ s with
           payload_cnt := cnt
           data_bits := 0
           data_start := dstart
           data := d0
           data_parity := par0
           col_parity := cp }, anns)
    else
      ({ s with
         payload_cnt := cnt
         data_bits := db
         data_start := dstart
         data := d0
         data_parity := par0
         col_parity := cp }, [])
  else
    (s, [])

/-- `putbit` of pd.py: emit the raw bit annotation (class 0), then run the
frame state machine. -/
def putbit (s : EMState) (bit : Bool) (bit_start bit_stop : ℚ) :
    EMState × List EAnn :=
  let a : EAnn := ⟨pyInt bit_start, pyInt bit_stop, 0, [bitStr bit]⟩
  let r := add_bit s bit bit_start bit_stop
  (r.1, a :: r.2)

/-- `manchester_decode` of pd.py.  `bit` is `self.oldpin ^ self.polarity`
(`oldpin` is always set when `decode` reaches this call; `getD false` only
fills the unreachable `None` case).  The source's complementary pulse tests
`oldpl > halfbit_limit` / `oldpl <= halfbit_limit` are rendered as an
if/else.  The unused local `t = samples / self.samplerate` is dropped. -/
def manchester_decode (s : EMState) (samplenum : ℕ) (pl : ℚ) (pp pin : Bool) :
    EMState × List EAnn :=
  let _ := pp
  let _ := pin
  let bit := (s.oldpin.getD false) ^^ s.polarity
  if pl > s.halfbit_limit then
    let r :=
      if s.oldpl > s.halfbit_limit then
        putbit s bit ((pyInt ((s.oldsamplenum : ℚ) - s.oldpl / 2) : ℤ) : ℚ)
          ((pyInt ((samplenum : ℚ) - pl / 2) : ℤ) : ℚ)
      else
        putbit s bit ((pyInt ((s.oldsamplenum : ℚ) - s.oldpl) : ℤ) : ℚ)
          ((pyInt ((samplenum : ℚ) - pl / 2) : ℤ) : ℚ)
    ({ r.1 with last_bit_pos := pyInt ((samplenum : ℚ) - pl / 2) }, r.2)
  else if pl < s.halfbit_limit then
    if s.oldpl > s.halfbit_limit then
      let r := putbit s bit ((s.oldsamplenum : ℚ) - s.oldpl / 2) ((samplenum : ℕ) : ℚ)
      ({ r.1 with last_bit_pos := (samplenum : ℤ) }, r.2)
    else
      if (s.last_bit_pos : ℚ) ≤ (s.oldsamplenum : ℚ) - s.oldpl then
        let r := putbit s bit ((s.oldsamplenum : ℚ) - s.oldpl) ((samplenum : ℕ) : ℚ)
        ({ r.1 with last_bit_pos := (samplenum : ℤ) }, r.2)
      else (s, [])
  else
    (s, [])

/-- One iteration of the loop body of `decode`, threading the accumulated
annotation list.  The three cases mirror the source: identical level —
skip; very first observed sample — initialize edge tracking; a level
change — compute the pulse length and run `manchester_decode`, then update
the previous-pulse fields. -/
def emStep (acc : EMState × List EAnn) (ev : ℕ × Bool) : EMState × List EAnn :=
  let s := acc.1
  let anns := acc.2
  let samplenum := ev.1
  let pin := ev.2
  if s.oldpin = some pin then acc
  else if s.oldpin = none then
    ({ s with
       oldpin := some pin
       last_samplenum := some samplenum
       lastlast_samplenum := some samplenum
       last_edge := samplenum
       oldpl := 0
       oldpp := false
       oldsamplenum := 0
       last_bit_pos := 0 }, anns)
  else
    let pl : ℚ := (samplenum : ℚ) - (s.oldsamplenum : ℚ)
    let pp := pin
    let r := manchester_decode s samplenum pl pp pin
    ({ r.1 with
       oldpl := pl
       oldpp := pp
       oldsamplenum := samplenum
       oldpin := some pin }, anns ++ r.2)

/-- Python truthiness of `self.samplerate` (`None` and `0` are falsy). -/
def samplerateTruthy : Option ℚ → Bool
  | none => false
  | some q => if q = 0 then false else true

/-- `decode` of pd.py over one input batch: raise `SamplerateError` when the
samplerate is still unset, before any sample is processed, otherwise fold
the loop body over the batch. -/
def emDecode (s : EMState) (data : List (ℕ × Bool)) :
    Except String (EMState × List EAnn) :=
  if samplerateTruthy s.samplerate = false then
    Except.error "Cannot decode without samplerate."
  else
    Except.ok (List.foldl emStep (s, []) data)

/-- Feed a list of (bit, start, stop) symbols to the frame state machine. -/
def add_bits (s : EMState) (bs : List (Bool × ℚ × ℚ)) : EMState × List EAnn :=
  bs.foldl (fun acc b =>
    let r := add_bit acc.1 b.1 b.2.1 b.2.2
    (r.1, acc.2 ++ r.2)) (s, [])

/-- One payload row: four data bits and the row parity bit. -/
structure Row where
  d1 : Bool
  d2 : Bool
  d3 : Bool
  d4 : Bool
  par : Bool
deriving DecidableEq, Repr

/-- The five symbols of a row, at dummy positions. -/
def rowBits (r : Row) : List (Bool × ℚ × ℚ) :=
  [(r.d1, 0, 0), (r.d2, 0, 0), (r.d3, 0, 0), (r.d4, 0, 0), (r.par, 0, 0)]

/-- The symbols of a list of rows, in order. -/
def rowsBits (rs : List Row) : List (Bool × ℚ × ℚ) := (rs.map rowBits).flatten

/-- The five trailer symbols, at dummy positions. -/
def trailerBits (t1 t2 t3 t4 t5 : Bool) : List (Bool × ℚ × ℚ) :=
  [(t1, 0, 0), (t2, 0, 0), (t3, 0, 0), (t4, 0, 0), (t5, 0, 0)]

/-- XOR of a list of bits (the column parity of the spec). -/
def xorList (l : List Bool) : Bool := l.foldl (fun a b => Bool.xor a b) false

/-- The rendered texts of the raw-bit (class 0) annotations of a result. -/
def cls0Texts (r : List EAnn) : List (List String) :=
  (r.filter (fun a => a.cls == 0)).map EAnn.txt

/-- The rendered texts of the parity-verdict (class 6) annotations. -/
def cls6Texts (r : List EAnn) : List (List String) :=
  (r.filter (fun a => a.cls == 6)).map EAnn.txt

/-- Modelled from the words of claim C3, for comparison against the source
only: the claimed polarity inversion flag, which would invert the level
exactly when the option is `active-low`. -/
def claimedPolarityFlag (pol : String) : Bool := pol == "active-low"

/-- The all-zero payload row. -/
def zeroRow : Row := ⟨false, false, false, false, false⟩

/-- A concrete mid-stream state: the decoder configured by `metadata` with
samplerate 1,000,000 and the default options (so `halfbit_limit = 384` and
the polarity flag of the default `active-high`), having last seen a low
level, with a previous long pulse of 600 samples ending at sample 1000. -/
def cexState3 : EMState :=
  { metadata initState defaultOptions SRD_CONF_SAMPLERATE 1000000 with
    oldpin := some false
    oldpl := 600
    oldsamplenum := 1000 }

/-- A concrete mid-stream state whose previous pulse length is exactly the
half-bit threshold 384 (previous edge at sample 1000, last level low). -/
def cexState6 : EMState :=
  { initState with
    halfbit_limit := 384
    oldpl := 384
    oldsamplenum := 1000
    oldpin := some false }

end EM4100

/-- C1: the claim says that for the 32-bit vector with bit 0 (the rightmost,
least significant bit) set and bits 1–31 clear, the Abort register decoder
emits "DAPABORT = 1: DAP abort generated" and no reserved-bit warning.  The
code instead reads `bits[0]`, the leftmost character (bit 31), contradicting
its own comment "Bits[31:1]: reserved. Bit[0]: DAPABORT." and the module's
right-most-is-LSB convention (which its own reserved check `bits[:-1]`
follows): on that vector it emits "DAPABORT = 0: No DAP abort generated".
This theorem evaluates the embedded handler at both vectors of the claim,
including the full decode dispatch from the ABORT state. -/
theorem jtag_abort_dapabort_eval :
    Jtag.handle_reg_abort Jtag.abortBit0 =
      (["DAPABORT = 0: No DAP abort generated"], none) ∧
    Jtag.handle_reg_abort Jtag.abortBit31And0 =
      (["DAPABORT = 1: DAP abort generated",
        "WARNING: DAPABORT[31:1] reserved!"], none) ∧
    Jtag.jtagDecode "ABORT" "DR TDO" Jtag.abortBit0 =
      ⟨"IDLE", ["DAPABORT = 0: No DAP abort generated"], none⟩ := by
  refine ⟨by decide, by decide, by decide⟩

/-- C2: loading an instruction whose low 4 bits are not in the table does
route the state machine to UNKNOWN, but the claim's second half fails in the
code: the next DR TDI (or DR TDO) command reaches `handle_reg_unknown`,
whose `'Unknown instruction: ' %% bits` raises `TypeError` (the format string
has no conversion specifier), so no diagnostic annotation is emitted and the
machine never returns to IDLE.  This theorem evaluates the embedded decoder
at the failing input IR = 0000 followed by DR TDI. -/
theorem jtag_unknown_instruction_eval :
    Jtag.jtagDecode "IDLE" "IR TDI" [false, false, false, false] =
      ⟨"UNKNOWN", ["IR: UNKNOWN"], none⟩ ∧
    Jtag.jtagDecode "UNKNOWN" "DR TDI" [false, false, false, false] =
      ⟨"UNKNOWN", [], some Jtag.PyError.typeError⟩ ∧
    Jtag.jtagDecode "UNKNOWN" "DR TDO" [true, false, true, true] =
      ⟨"UNKNOWN", [], some Jtag.PyError.typeError⟩ := by
  refine ⟨by decide, by decide, by decide⟩

/-- C10: in any reachable state, a command whose register select is not one
the state accepts produces no annotation, raises nothing, and leaves the
state unchanged: IDLE accepts only "IR TDI", BYPASS only "DR TDI", and the
five data-register states only "DR TDI" or "DR TDO". -/
theorem jtag_rejected_command_noop (state cmd : String) (val : List Bool)
    (h : (state = "IDLE" ∧ cmd ≠ "IR TDI") ∨
         (state = "BYPASS" ∧ cmd ≠ "DR TDI") ∨
         (state ∈ ["IDCODE", "DPACC", "APACC", "ABORT", "UNKNOWN"] ∧
           cmd ≠ "DR TDI" ∧ cmd ≠ "DR TDO")) :
    Jtag.jtagDecode state cmd val = ⟨state, [], none⟩ := by
  rcases h with ⟨hs, hc⟩ | ⟨hs, hc⟩ | ⟨hs, hc1, hc2⟩
  · simp [Jtag.jtagDecode, hs, hc]
  · simp [Jtag.jtagDecode, hs, hc]
  · fin_cases hs <;> simp [Jtag.jtagDecode, hc1, hc2]

/-- Witness for C10: the concrete command "DR TDI" is rejected in IDLE. -/
theorem jtag_rejected_command_noop_witness :
    Jtag.jtagDecode "IDLE" "DR TDI" [] = ⟨"IDLE", [], none⟩ :=
  jtag_rejected_command_noop "IDLE" "DR TDI" [] (Or.inl ⟨rfl, by decide⟩)

/-- C8: with samplerate 1,000,000 and the default options (coil frequency
125000, data rate 64), `metadata` derives `bit_width = 512` and
`halfbit_limit = 384`, and a pulse of 600 samples satisfies the long-pulse
branch condition `pl > halfbit_limit` of `manchester_decode` (and not the
short-pulse condition). -/
theorem em_timing_derivation :
    (EM4100.metadata EM4100.initState EM4100.defaultOptions
      EM4100.SRD_CONF_SAMPLERATE 1000000).bit_width = 512 ∧
    (EM4100.metadata EM4100.initState EM4100.defaultOptions
      EM4100.SRD_CONF_SAMPLERATE 1000000).halfbit_limit = 384 ∧
    (600 : ℚ) > (EM4100.metadata EM4100.initState EM4100.defaultOptions
      EM4100.SRD_CONF_SAMPLERATE 1000000).halfbit_limit ∧
    ¬((600 : ℚ) < (EM4100.metadata EM4100.initState EM4100.defaultOptions
      EM4100.SRD_CONF_SAMPLERATE 1000000).halfbit_limit) := by
  have hc : EM4100.pyStrToNat EM4100.defaultOptions.coilfreq = 125000 := rfl
  have hd : EM4100.pyStrToNat EM4100.defaultOptions.datarate = 64 := rfl
  refine ⟨?_, ?_, ?_, ?_⟩ <;>
    · simp only [EM4100.metadata, EM4100.initState, EM4100.SRD_CONF_SAMPLERATE, hc, hd]
      norm_num

/-- C7: the guard at the top of `decode` raises exactly when the samplerate
is still unset, before any sample of the batch is processed (on the error
path the fold over the batch is never entered, so no annotation is emitted
and the decoder state is untouched).  The hypothesis records that the host
only ever delivers a positive samplerate, so Python falsiness of
`self.samplerate` coincides with it being unset. -/
theorem em_decode_samplerate_guard (s : EM4100.EMState) (data : List (ℕ × Bool))
    (hpos : ∀ q : ℚ, s.samplerate = some q → 0 < q) :
    (EM4100.emDecode s data = Except.error "Cannot decode without samplerate.")
      ↔ s.samplerate = none := by
  constructor
  · intro h
    cases hsr : s.samplerate with
    | none => rfl
    | some q =>
      have hq := hpos q hsr
      have : EM4100.samplerateTruthy s.samplerate = true := by
        simp [EM4100.samplerateTruthy, hsr]
        exact ne_of_gt hq
      simp [EM4100.emDecode, this] at h
  · intro h
    simp [EM4100.emDecode, EM4100.samplerateTruthy, h]

/-- Witness for C7: the freshly initialized decoder has no samplerate and
`decode` on it fails with the configuration error. -/
theorem em_decode_samplerate_guard_witness :
    (EM4100.emDecode EM4100.initState [] =
      Except.error "Cannot decode without samplerate.")
      ↔ EM4100.initState.samplerate = none :=
  em_decode_samplerate_guard EM4100.initState []
    (fun q hq => by simp [EM4100.initState] at hq)

/-- After processing any sample, `oldpin` holds that sample's level. -/
theorem emStep_oldpin (acc : EM4100.EMState × List EM4100.EAnn) (ev : ℕ × Bool) :
    ((EM4100.emStep acc ev).1).oldpin = some ev.2 := by
  by_cases h1 : acc.1.oldpin = some ev.2
  · simp [EM4100.emStep, h1]
  · by_cases h2 : acc.1.oldpin = none
    · simp [EM4100.emStep, h1, h2]
    · simp [EM4100.emStep, h1, h2]

/-- A sample whose level equals `oldpin` is skipped entirely. -/
theorem emStep_skip (acc : EM4100.EMState × List EM4100.EAnn) (ev : ℕ × Bool)
    (h : acc.1.oldpin = some ev.2) : EM4100.emStep acc ev = acc := by
  unfold EM4100.emStep
  simp [h]

/-- C9: a sample whose level equals the previously seen level changes
nothing — no edge, no symbol, no annotation, no state change — and hence
duplicating any sample of a batch leaves `decode`'s result (state and
annotation stream) unchanged. -/
theorem em_duplicate_sample_noop (s : EM4100.EMState) (anns : List EM4100.EAnn)
    (samplenum : ℕ) (pin : Bool) (s0 : EM4100.EMState)
    (xs ys : List (ℕ × Bool)) (m : ℕ) (lvl : Bool)
    (h : s.oldpin = some pin) :
    EM4100.emStep (s, anns) (samplenum, pin) = (s, anns) ∧
    EM4100.emDecode s0 (xs ++ (m, lvl) :: (m, lvl) :: ys) =
      EM4100.emDecode s0 (xs ++ (m, lvl) :: ys) := by
  constructor
  · exact emStep_skip (s, anns) (samplenum, pin) h
  · unfold EM4100.emDecode
    split
    · rfl
    · have key : List.foldl EM4100.emStep (s0, ([] : List EM4100.EAnn))
          (xs ++ (m, lvl) :: (m, lvl) :: ys) =
          List.foldl EM4100.emStep (s0, []) (xs ++ (m, lvl) :: ys) := by
        rw [List.foldl_append, List.foldl_append]
        simp only [List.foldl_cons]
        rw [emStep_skip (EM4100.emStep (List.foldl EM4100.emStep (s0, []) xs) (m, lvl))
          (m, lvl) (emStep_oldpin (List.foldl EM4100.emStep (s0, []) xs) (m, lvl))]
      rw [key]

/-- Witness for C9: duplicating a sample in a concrete two-sample batch, and
skipping a repeated level in a concrete state. -/
theorem em_duplicate_sample_noop_witness :
    EM4100.emStep ({ EM4100.initState with oldpin := some false }, []) (5, false) =
      ({ EM4100.initState with oldpin := some false }, []) ∧
    EM4100.emDecode EM4100.initState ([] ++ (0, false) :: (0, false) :: []) =
      EM4100.emDecode EM4100.initState ([] ++ (0, false) :: []) :=
  em_duplicate_sample_noop { EM4100.initState with oldpin := some false } [] 5 false
    EM4100.initState [] [] 0 false rfl

set_option maxHeartbeats 1600000 in
/-- The frame state machine never emits a raw-bit (class 0) annotation:
those come only from `putbit`. -/
theorem add_bit_no_cls0 (s : EM4100.EMState) (bit : Bool) (p q : ℚ) :
    (EM4100.add_bit s bit p q).2.filter (fun a => a.cls == 0) = [] := by
  simp only [EM4100.add_bit]
  split_ifs <;> rfl

/-- The raw-bit texts of one `putbit` call: exactly the rendered bit. -/
theorem cls0Texts_putbit (s : EM4100.EMState) (bit : Bool) (p q : ℚ) :
    EM4100.cls0Texts (EM4100.putbit s bit p q).2 = [[EM4100.bitStr bit]] := by
  simp [EM4100.putbit, EM4100.cls0Texts, List.filter_cons, add_bit_no_cls0 s bit p q]

/-- C3 counterexample: with the default `active-high` polarity the code's
flag is 1, so the emitted bit is the inverse of the level before the
transition.  In `cexState3` (configured active-high, previous level low), a
long pulse emits the raw-bit annotation "1", while the claim's formula
(invert exactly on `active-low`) predicts "0". -/
theorem em_polarity_claim_cex :
    EM4100.cls0Texts (EM4100.manchester_decode EM4100.cexState3 1600 600 false true).2 =
      [["1"]] ∧
    EM4100.bitStr (false ^^ EM4100.claimedPolarityFlag "active-high") = "0" := by
  constructor
  · have hc : EM4100.pyStrToNat "125000" = 125000 := rfl
    have hd : EM4100.pyStrToNat "64" = 64 := rfl
    have hl : EM4100.cexState3.halfbit_limit = 384 := by
      simp only [EM4100.cexState3, EM4100.metadata, EM4100.initState,
        EM4100.defaultOptions, EM4100.SRD_CONF_SAMPLERATE, hc, hd]
      norm_num
    have h1 : (600 : ℚ) > EM4100.cexState3.halfbit_limit := by rw [hl]; norm_num
    have h2 : EM4100.cexState3.oldpl > EM4100.cexState3.halfbit_limit := by
      rw [hl]; show (600 : ℚ) > 384; norm_num
    have hp : EM4100.cexState3.oldpin = some false := rfl
    have hq : EM4100.cexState3.polarity = true := rfl
    simp [EM4100.manchester_decode, h1, h2, cls0Texts_putbit, hp, hq, EM4100.bitStr]
  · rfl

/-- C3 as amended: every raw-bit annotation `manchester_decode` emits
renders `oldpin XOR flag` where the flag — contrary to the claim — inverts
exactly when the polarity option is the default `active-high` and leaves
the level unchanged for `active-low`. -/
theorem em_bit_polarity_amended (s : EM4100.EMState) (lvl : Bool)
    (opts : EM4100.EMOptions) (samplenum : ℕ) (pl : ℚ) (pp pin : Bool)
    (hpin : s.oldpin = some lvl)
    (hpol : s.polarity = EM4100.polarityFlag opts.polarity) :
    (EM4100.cls0Texts (EM4100.manchester_decode s samplenum pl pp pin).2 = [] ∨
     EM4100.cls0Texts (EM4100.manchester_decode s samplenum pl pp pin).2 =
       [[EM4100.bitStr (lvl ^^ EM4100.polarityFlag opts.polarity)]]) ∧
    EM4100.polarityFlag "active-high" = true ∧
    EM4100.polarityFlag "active-low" = false := by
  refine ⟨?_, rfl, rfl⟩
  have hbit : Bool.xor (s.oldpin.getD false) s.polarity =
      Bool.xor lvl (EM4100.polarityFlag opts.polarity) := by rw [hpin, hpol]; rfl
  by_cases h1 : pl > s.halfbit_limit
  · right
    by_cases h2 : s.oldpl > s.halfbit_limit
    · simp [EM4100.manchester_decode, h1, h2, cls0Texts_putbit, hbit]
    · simp [EM4100.manchester_decode, h1, h2, cls0Texts_putbit, hbit]
  · by_cases h3 : pl < s.halfbit_limit
    · by_cases h2 : s.oldpl > s.halfbit_limit
      · right
        simp [EM4100.manchester_decode, h1, h3, h2, cls0Texts_putbit, hbit]
      · by_cases h4 : (s.last_bit_pos : ℚ) ≤ (s.oldsamplenum : ℚ) - s.oldpl
        · right
          simp [EM4100.manchester_decode, h1, h3, h2, h4, cls0Texts_putbit, hbit]
        · left
          simp [EM4100.manchester_decode, h1, h3, h2, h4, EM4100.cls0Texts]
    · left
      simp [EM4100.manchester_decode, h1, h3, EM4100.cls0Texts]

/-- Witness for C3 as amended, at the concrete configured state. -/
theorem em_bit_polarity_amended_witness :
    (EM4100.cls0Texts (EM4100.manchester_decode EM4100.cexState3 1600 600 false true).2 = [] ∨
     EM4100.cls0Texts (EM4100.manchester_decode EM4100.cexState3 1600 600 false true).2 =
       [[EM4100.bitStr (false ^^ EM4100.polarityFlag "active-high")]]) ∧
    EM4100.polarityFlag "active-high" = true ∧
    EM4100.polarityFlag "active-low" = false :=
  em_bit_polarity_amended EM4100.cexState3 false EM4100.defaultOptions 1600 600
    false true rfl rfl

/-- C6 counterexample: the claim says a previous pulse exactly at the
threshold makes neither previous-pulse emission shape fire; but the code
tests `oldpl <= halfbit_limit`, so equality falls into the previous-short
shape.  In `cexState6` (`oldpl = halfbit_limit = 384`), a long current
pulse of 600 samples emits a raw-bit annotation spanning 616..1300. -/
theorem em_threshold_tie_cex :
    (EM4100.manchester_decode EM4100.cexState6 1600 600 false true).2 =
      [⟨616, 1300, 0, ["0"]⟩] := by
  have h1 : (600 : ℚ) > EM4100.cexState6.halfbit_limit := by
    show (600 : ℚ) > 384; norm_num
  have h2 : ¬(EM4100.cexState6.oldpl > EM4100.cexState6.halfbit_limit) := by
    show ¬((384 : ℚ) > 384); norm_num
  have hp : EM4100.cexState6.oldpin = some false := rfl
  have hq : EM4100.cexState6.polarity = false := rfl
  have hst : EM4100.cexState6.state = "HEADER" := rfl
  have hfo : EM4100.cexState6.first_one = 0 := rfl
  have hos : EM4100.cexState6.oldsamplenum = 1000 := rfl
  have hol : EM4100.cexState6.oldpl = 384 := rfl
  have e1 : EM4100.pyInt ((1000 : ℚ) - 384) = 616 := by
    norm_num [EM4100.pyInt]
  have e2 : EM4100.pyInt ((1600 : ℚ) - 600 / 2) = 1300 := by
    norm_num [EM4100.pyInt]
  have e3 : EM4100.pyInt ((616 : ℚ)) = 616 := by
    norm_num [EM4100.pyInt]
  have e4 : EM4100.pyInt ((1300 : ℚ)) = 1300 := by
    norm_num [EM4100.pyInt]
  have hhl : EM4100.cexState6.halfbit_limit = 384 := rfl
  have c1 : (384 : ℚ) < 600 := by norm_num
  have c2 : ¬((600 : ℚ) < 384) := by norm_num
  simp [EM4100.manchester_decode, h1, h2, hp, hq, hst, hfo, hos, hol, hhl,
    EM4100.putbit, EM4100.add_bit, EM4100.bitStr, e1, e2, e3, e4, c1, c2]

/-- C6 as amended: a pulse whose length is exactly `halfbit_limit` is
indeed classified as neither short nor long when it is the current pulse
(no branch fires, nothing is emitted, the state is unchanged); but when the
previous pulse length equals the threshold and the current pulse is long,
the previous-pulse-SHORT shape fires (the code compares
`oldpl <= halfbit_limit`), emitting one symbol from
`prev_position - prev_pulse` to `position - pulse/2`. -/
theorem em_threshold_tie_amended (s : EM4100.EMState) (samplenum : ℕ) (pl : ℚ)
    (pp pin : Bool)
    (hold : s.oldpl = s.halfbit_limit) (hpl : s.halfbit_limit < pl) :
    EM4100.manchester_decode s samplenum s.halfbit_limit pp pin = (s, []) ∧
    EM4100.manchester_decode s samplenum pl pp pin =
      ({ (EM4100.putbit s ((s.oldpin.getD false) ^^ s.polarity)
            ((EM4100.pyInt ((s.oldsamplenum : ℚ) - s.oldpl) : ℤ) : ℚ)
            ((EM4100.pyInt ((samplenum : ℚ) - pl / 2) : ℤ) : ℚ)).1 with
          last_bit_pos := EM4100.pyInt ((samplenum : ℚ) - pl / 2) },
       (EM4100.putbit s ((s.oldpin.getD false) ^^ s.polarity)
          ((EM4100.pyInt ((s.oldsamplenum : ℚ) - s.oldpl) : ℤ) : ℚ)
          ((EM4100.pyInt ((samplenum : ℚ) - pl / 2) : ℤ) : ℚ)).2) := by
  constructor
  · simp [EM4100.manchester_decode, lt_irrefl]
  · have h2 : ¬(s.oldpl > s.halfbit_limit) := by rw [hold]; exact lt_irrefl _
    simp [EM4100.manchester_decode, hpl, h2]

/-- Witness for C6 as amended, at the concrete threshold-tie state. -/
theorem em_threshold_tie_amended_witness :
    EM4100.manchester_decode EM4100.cexState6 1600 EM4100.cexState6.halfbit_limit
      false true = (EM4100.cexState6, []) ∧
    EM4100.manchester_decode EM4100.cexState6 1600 600 false true =
      ({ (EM4100.putbit EM4100.cexState6
            ((EM4100.cexState6.oldpin.getD false) ^^ EM4100.cexState6.polarity)
            ((EM4100.pyInt ((EM4100.cexState6.oldsamplenum : ℚ) -
                EM4100.cexState6.oldpl) : ℤ) : ℚ)
            ((EM4100.pyInt (((1600 : ℕ) : ℚ) - 600 / 2) : ℤ) : ℚ)).1 with
          last_bit_pos := EM4100.pyInt (((1600 : ℕ) : ℚ) - 600 / 2) },
       (EM4100.putbit EM4100.cexState6
          ((EM4100.cexState6.oldpin.getD false) ^^ EM4100.cexState6.polarity)
          ((EM4100.pyInt ((EM4100.cexState6.oldsamplenum : ℚ) -
              EM4100.cexState6.oldpl) : ℤ) : ℚ)
          ((EM4100.pyInt (((1600 : ℕ) : ℚ) - 600 / 2) : ℤ) : ℚ)).2) :=
  em_threshold_tie_amended EM4100.cexState6 1600 600 false true rfl
    (by show (384 : ℚ) < 600; norm_num)

set_option maxHeartbeats 1600000 in
/-- C4: feeding any payload group of five symbols (four data bits then the
row-parity bit) to the frame state machine in a group-aligned PAYLOAD state
emits exactly one row-parity verdict annotation, and it reads OK exactly
when the XOR of the four data bits equals the parity bit — for all sixteen
nibbles crossed with both parity values, at arbitrary symbol positions. -/
theorem em_row_parity_verdict (s : EM4100.EMState) (b1 b2 b3 b4 p : Bool)
    (x1 y1 x2 y2 x3 y3 x4 y4 x5 y5 : ℚ)
    (hs : s.state = "PAYLOAD") (hdb : s.data_bits = 0) :
    EM4100.cls6Texts (EM4100.add_bits s
      [(b1, x1, y1), (b2, x2, y2), (b3, x3, y3), (b4, x4, y4), (p, x5, y5)]).2 =
      [if (((b1 ^^ b2) ^^ b3) ^^ b4) = p then ["OK", "O"]
       else ["ERROR", "ERR", "ER", "E"]] := by
  simp [EM4100.add_bits, EM4100.add_bit, hs, hdb, EM4100.cls6Texts,
    EM4100.Par6.set, EM4100.Par6.get]

/-- Witness for C4: the all-zero group has even parity, verdict OK. -/
theorem em_row_parity_verdict_witness :
    EM4100.cls6Texts (EM4100.add_bits { EM4100.initState with state := "PAYLOAD" }
      [(false, 0, 0), (false, 0, 0), (false, 0, 0), (false, 0, 0), (false, 0, 0)]).2 =
      [if (((false ^^ false) ^^ false) ^^ false) = false then ["OK", "O"]
       else ["ERROR", "ERR", "ER", "E"]] :=
  em_row_parity_verdict { EM4100.initState with state := "PAYLOAD" }
    false false false false false 0 0 0 0 0 0 0 0 0 0 rfl rfl

/-- Folding the frame machine from a nonempty annotation accumulator only
prepends that accumulator to the annotations. -/
theorem add_bits_shift (l : List (Bool × ℚ × ℚ)) (s : EM4100.EMState)
    (a0 : List EM4100.EAnn) :
    List.foldl (fun acc b =>
      let r := EM4100.add_bit acc.1 b.1 b.2.1 b.2.2
      (r.1, acc.2 ++ r.2)) (s, a0) l =
    ((EM4100.add_bits s l).1, a0 ++ (EM4100.add_bits s l).2) := by
  induction l generalizing s a0 with
  | nil => simp [EM4100.add_bits]
  | cons x xs ih =>
    simp only [EM4100.add_bits, List.foldl_cons]
    rw [ih, ih]
    simp

/-- Splitting a symbol list splits the frame machine run. -/
theorem add_bits_append (s : EM4100.EMState) (l1 l2 : List (Bool × ℚ × ℚ)) :
    EM4100.add_bits s (l1 ++ l2) =
      ((EM4100.add_bits (EM4100.add_bits s l1).1 l2).1,
       (EM4100.add_bits s l1).2 ++ (EM4100.add_bits (EM4100.add_bits s l1).1 l2).2) := by
  have h : EM4100.add_bits s (l1 ++ l2) =
      List.foldl (fun acc b =>
        let r := EM4100.add_bit acc.1 b.1 b.2.1 b.2.2
        (r.1, acc.2 ++ r.2)) ((EM4100.add_bits s l1).1, (EM4100.add_bits s l1).2) l2 := by
    simp only [EM4100.add_bits, List.foldl_append]
  rw [h, add_bits_shift]

set_option maxHeartbeats 1600000 in
/-- One payload row (four data bits and a parity bit) from a group-aligned
PAYLOAD state: the counter advances by five, the four data bits are XORed
into column accumulators 1-4 (the parity bit into the unused slot 0), and
the machine moves to TRAILER exactly when the row completes bit 50. -/
theorem em_payload_row (s : EM4100.EMState) (r : EM4100.Row)
    (hs : s.state = "PAYLOAD") (hdb : s.data_bits = 0) :
    (EM4100.add_bits s (EM4100.rowBits r)).1.state =
        (if s.payload_cnt + 5 = 50 then "TRAILER" else "PAYLOAD") ∧
    (EM4100.add_bits s (EM4100.rowBits r)).1.data_bits = 0 ∧
    (EM4100.add_bits s (EM4100.rowBits r)).1.payload_cnt =
        (if s.payload_cnt + 5 = 50 then 0 else s.payload_cnt + 5) ∧
    (EM4100.add_bits s (EM4100.rowBits r)).1.data_col_parity =
      ⟨s.data_col_parity.a0 ^^ r.par, s.data_col_parity.a1 ^^ r.d1,
       s.data_col_parity.a2 ^^ r.d2, s.data_col_parity.a3 ^^ r.d3,
       s.data_col_parity.a4 ^^ r.d4, s.data_col_parity.a5⟩ ∧
    (EM4100.add_bits s (EM4100.rowBits r)).1.col_parity = s.col_parity := by
  refine ⟨?_, ?_, ?_, ?_, ?_⟩ <;>
    simp +arith [EM4100.add_bits, EM4100.rowBits, EM4100.add_bit, hs, hdb,
      EM4100.Par6.set, EM4100.Par6.get]

/-- Folding XOR from an arbitrary seed. -/
theorem foldl_xor_seed (l : List Bool) (b : Bool) :
    l.foldl (fun a c => Bool.xor a c) b = Bool.xor b (EM4100.xorList l) := by
  induction l generalizing b with
  | nil => simp [EM4100.xorList]
  | cons x xs ih =>
    simp only [EM4100.xorList, List.foldl_cons] at ih ⊢
    rw [ih, ih]
    cases b <;> cases x <;> simp [ih true]

/-- `xorList` distributes over cons. -/
theorem xorList_cons (x : Bool) (l : List Bool) :
    EM4100.xorList (x :: l) = Bool.xor x (EM4100.xorList l) := by
  simp only [EM4100.xorList, List.foldl_cons]
  rw [foldl_xor_seed]
  simp [EM4100.xorList]

/-- Any number of payload rows that stays strictly below bit 50: the machine
remains in PAYLOAD, stays group-aligned, advances the counter by five per
row, XORs the rows' data bits columnwise into accumulators 1-4 (and their
parity bits into the unused slot 0), and never touches `col_parity`. -/
theorem em_payload_rows (rs : List EM4100.Row) (s : EM4100.EMState)
    (hs : s.state = "PAYLOAD") (hdb : s.data_bits = 0)
    (hcnt : s.payload_cnt + 5 * rs.length < 50) :
    (EM4100.add_bits s (EM4100.rowsBits rs)).1.state = "PAYLOAD" ∧
    (EM4100.add_bits s (EM4100.rowsBits rs)).1.data_bits = 0 ∧
    (EM4100.add_bits s (EM4100.rowsBits rs)).1.payload_cnt =
      s.payload_cnt + 5 * rs.length ∧
    (EM4100.add_bits s (EM4100.rowsBits rs)).1.data_col_parity =
      ⟨Bool.xor s.data_col_parity.a0 (EM4100.xorList (rs.map EM4100.Row.par)),
       Bool.xor s.data_col_parity.a1 (EM4100.xorList (rs.map EM4100.Row.d1)),
       Bool.xor s.data_col_parity.a2 (EM4100.xorList (rs.map EM4100.Row.d2)),
       Bool.xor s.data_col_parity.a3 (EM4100.xorList (rs.map EM4100.Row.d3)),
       Bool.xor s.data_col_parity.a4 (EM4100.xorList (rs.map EM4100.Row.d4)),
       s.data_col_parity.a5⟩ ∧
    (EM4100.add_bits s (EM4100.rowsBits rs)).1.col_parity = s.col_parity := by
  induction rs generalizing s with
  | nil =>
    simp [EM4100.rowsBits, EM4100.add_bits, EM4100.xorList, hs, hdb]
  | cons r rs ih =>
    have hsplit : EM4100.rowsBits (r :: rs) =
        EM4100.rowBits r ++ EM4100.rowsBits rs := by
      simp [EM4100.rowsBits]
    have hc5 : ¬(s.payload_cnt + 5 = 50) := by
      simp only [List.length_cons] at hcnt
      omega
    obtain ⟨h1, h2, h3, h4, h5⟩ := em_payload_row s r hs hdb
    rw [if_neg hc5] at h1 h3
    rw [hsplit, add_bits_append]
    have hcnt2 : (EM4100.add_bits s (EM4100.rowBits r)).1.payload_cnt +
        5 * rs.length < 50 := by
      rw [h3]
      simp only [List.length_cons] at hcnt
      omega
    obtain ⟨i1, i2, i3, i4, i5⟩ := ih (EM4100.add_bits s (EM4100.rowBits r)).1 h1 h2 hcnt2
    refine ⟨i1, i2, ?_, ?_, ?_⟩
    · rw [i3, h3]
      simp only [List.length_cons]
      omega
    · rw [i4, h4]
      simp [List.map_cons, xorList_cons, Bool.xor_assoc]
    · rw [i5, h5]

set_option maxHeartbeats 1600000 in
/-- The five trailer symbols from a trailer-entry state: the verdict
annotation reads OK exactly when all four column accumulators equal the
corresponding trailer bits, and after the fifth (stop) bit both parity
arrays are reset to zero and the machine returns to HEADER with cleared
counters. -/
theorem em_trailer_run (s : EM4100.EMState) (t1 t2 t3 t4 t5 : Bool)
    (hs : s.state = "TRAILER") (hdb : s.data_bits = 0) (hpc : s.payload_cnt = 0) :
    (EM4100.add_bits s (EM4100.trailerBits t1 t2 t3 t4 t5)).1.state = "HEADER" ∧
    (EM4100.add_bits s (EM4100.trailerBits t1 t2 t3 t4 t5)).1.payload_cnt = 0 ∧
    (EM4100.add_bits s (EM4100.trailerBits t1 t2 t3 t4 t5)).1.data_bits = 0 ∧
    (EM4100.add_bits s (EM4100.trailerBits t1 t2 t3 t4 t5)).1.data_col_parity =
      EM4100.Par6.zero ∧
    (EM4100.add_bits s (EM4100.trailerBits t1 t2 t3 t4 t5)).1.col_parity =
      EM4100.Par6.zero ∧
    EM4100.cls6Texts (EM4100.add_bits s (EM4100.trailerBits t1 t2 t3 t4 t5)).2 =
      [if s.data_col_parity.a1 = t1 ∧ s.data_col_parity.a2 = t2 ∧
          s.data_col_parity.a3 = t3 ∧ s.data_col_parity.a4 = t4
       then ["OK", "O"] else ["ERROR", "ERR", "ER", "E"]] := by
  refine ⟨?_, ?_, ?_, ?_, ?_, ?_⟩ <;>
  · by_cases c1 : s.data_col_parity.a1 = t1 <;>
    by_cases c2 : s.data_col_parity.a2 = t2 <;>
    by_cases c3 : s.data_col_parity.a3 = t3 <;>
    by_cases c4 : s.data_col_parity.a4 = t4 <;>
      simp +arith [EM4100.add_bits, EM4100.trailerBits, EM4100.add_bit, hs, hdb,
        hpc, EM4100.Par6.set, EM4100.Par6.get, EM4100.cls6Texts, c1, c2, c3, c4]

/-- C5: starting a fresh payload (group-aligned, counter 0, cleared column
accumulators — the state at every payload entry), processing ten rows of
five symbols reaches the trailer; the five trailer symbols then produce a
column-parity verdict that reads OK exactly when each per-column XOR of the
ten rows' data bits equals the corresponding one of the first four trailer
bits; if that verdict condition holds, flipping any single one of those
four trailer bits turns the verdict into ERROR; and after the fifth trailer
bit both parity arrays are reset to zero and the machine returns to HEADER
with cleared counters. -/
theorem em_column_parity_verdict (s : EM4100.EMState)
    (r1 r2 r3 r4 r5 r6 r7 r8 r9 r10 : EM4100.Row) (t1 t2 t3 t4 t5 : Bool)
    (hs : s.state = "PAYLOAD") (hdb : s.data_bits = 0)
    (hpc : s.payload_cnt = 0) (hdcp : s.data_col_parity = EM4100.Par6.zero) :
    (EM4100.add_bits s
      (EM4100.rowsBits [r1, r2, r3, r4, r5, r6, r7, r8, r9, r10])).1.state =
      "TRAILER" ∧
    EM4100.cls6Texts (EM4100.add_bits (EM4100.add_bits s
        (EM4100.rowsBits [r1, r2, r3, r4, r5, r6, r7, r8, r9, r10])).1
        (EM4100.trailerBits t1 t2 t3 t4 t5)).2 =
      [if EM4100.xorList [r1.d1, r2.d1, r3.d1, r4.d1, r5.d1,
            r6.d1, r7.d1, r8.d1, r9.d1, r10.d1] = t1 ∧
          EM4100.xorList [r1.d2, r2.d2, r3.d2, r4.d2, r5.d2,
            r6.d2, r7.d2, r8.d2, r9.d2, r10.d2] = t2 ∧
          EM4100.xorList [r1.d3, r2.d3, r3.d3, r4.d3, r5.d3,
            r6.d3, r7.d3, r8.d3, r9.d3, r10.d3] = t3 ∧
          EM4100.xorList [r1.d4, r2.d4, r3.d4, r4.d4, r5.d4,
            r6.d4, r7.d4, r8.d4, r9.d4, r10.d4] = t4
       then ["OK", "O"] else ["ERROR", "ERR", "ER", "E"]] ∧
    ((EM4100.xorList [r1.d1, r2.d1, r3.d1, r4.d1, r5.d1,
          r6.d1, r7.d1, r8.d1, r9.d1, r10.d1] = t1 ∧
      EM4100.xorList [r1.d2, r2.d2, r3.d2, r4.d2, r5.d2,
          r6.d2, r7.d2, r8.d2, r9.d2, r10.d2] = t2 ∧
      EM4100.xorList [r1.d3, r2.d3, r3.d3, r4.d3, r5.d3,
          r6.d3, r7.d3, r8.d3, r9.d3, r10.d3] = t3 ∧
      EM4100.xorList [r1.d4, r2.d4, r3.d4, r4.d4, r5.d4,
          r6.d4, r7.d4, r8.d4, r9.d4, r10.d4] = t4) →
      (EM4100.cls6Texts (EM4100.add_bits (EM4100.add_bits s
          (EM4100.rowsBits [r1, r2, r3, r4, r5, r6, r7, r8, r9, r10])).1
          (EM4100.trailerBits (!t1) t2 t3 t4 t5)).2 =
        [["ERROR", "ERR", "ER", "E"]] ∧
       EM4100.cls6Texts (EM4100.add_bits (EM4100.add_bits s
          (EM4100.rowsBits [r1, r2, r3, r4, r5, r6, r7, r8, r9, r10])).1
          (EM4100.trailerBits t1 (!t2) t3 t4 t5)).2 =
        [["ERROR", "ERR", "ER", "E"]] ∧
       EM4100.cls6Texts (EM4100.add_bits (EM4100.add_bits s
          (EM4100.rowsBits [r1, r2, r3, r4, r5, r6, r7, r8, r9, r10])).1
          (EM4100.trailerBits t1 t2 (!t3) t4 t5)).2 =
        [["ERROR", "ERR", "ER", "E"]] ∧
       EM4100.cls6Texts (EM4100.add_bits (EM4100.add_bits s
          (EM4100.rowsBits [r1, r2, r3, r4, r5, r6, r7, r8, r9, r10])).1
          (EM4100.trailerBits t1 t2 t3 (!t4) t5)).2 =
        [["ERROR", "ERR", "ER", "E"]])) ∧
    (EM4100.add_bits (EM4100.add_bits s
        (EM4100.rowsBits [r1, r2, r3, r4, r5, r6, r7, r8, r9, r10])).1
        (EM4100.trailerBits t1 t2 t3 t4 t5)).1.state = "HEADER" ∧
    (EM4100.add_bits (EM4100.add_bits s
        (EM4100.rowsBits [r1, r2, r3, r4, r5, r6, r7, r8, r9, r10])).1
        (EM4100.trailerBits t1 t2 t3 t4 t5)).1.payload_cnt = 0 ∧
    (EM4100.add_bits (EM4100.add_bits s
        (EM4100.rowsBits [r1, r2, r3, r4, r5, r6, r7, r8, r9, r10])).1
        (EM4100.trailerBits t1 t2 t3 t4 t5)).1.data_bits = 0 ∧
    (EM4100.add_bits (EM4100.add_bits s
        (EM4100.rowsBits [r1, r2, r3, r4, r5, r6, r7, r8, r9, r10])).1
        (EM4100.trailerBits t1 t2 t3 t4 t5)).1.data_col_parity =
      EM4100.Par6.zero ∧
    (EM4100.add_bits (EM4100.add_bits s
        (EM4100.rowsBits [r1, r2, r3, r4, r5, r6, r7, r8, r9, r10])).1
        (EM4100.trailerBits t1 t2 t3 t4 t5)).1.col_parity = EM4100.Par6.zero := by
  have hsplit : EM4100.rowsBits [r1, r2, r3, r4, r5, r6, r7, r8, r9, r10] =
      EM4100.rowsBits [r1, r2, r3, r4, r5, r6, r7, r8, r9] ++
        EM4100.rowBits r10 := by
    simp [EM4100.rowsBits]
  obtain ⟨p1, p2, p3, p4, p5⟩ :=
    em_payload_rows [r1, r2, r3, r4, r5, r6, r7, r8, r9] s hs hdb
      (by rw [hpc]; norm_num)
  rw [hdcp] at p4
  obtain ⟨q1, q2, q3, q4, q5⟩ :=
    em_payload_row (EM4100.add_bits s
      (EM4100.rowsBits [r1, r2, r3, r4, r5, r6, r7, r8, r9])).1 r10 p1 p2
  have hc50 : (EM4100.add_bits s
      (EM4100.rowsBits [r1, r2, r3, r4, r5, r6, r7, r8, r9])).1.payload_cnt + 5 =
      50 := by
    rw [p3, hpc]
    norm_num
  rw [if_pos hc50] at q1 q3
  simp only [hsplit, add_bits_append]
  have ha1 : (EM4100.add_bits (EM4100.add_bits s
      (EM4100.rowsBits [r1, r2, r3, r4, r5, r6, r7, r8, r9])).1
      (EM4100.rowBits r10)).1.data_col_parity.a1 =
      EM4100.xorList [r1.d1, r2.d1, r3.d1, r4.d1, r5.d1,
        r6.d1, r7.d1, r8.d1, r9.d1, r10.d1] := by
    rw [q4, p4]
    simp [EM4100.Par6.zero, EM4100.xorList]
  have ha2 : (EM4100.add_bits (EM4100.add_bits s
      (EM4100.rowsBits [r1, r2, r3, r4, r5, r6, r7, r8, r9])).1
      (EM4100.rowBits r10)).1.data_col_parity.a2 =
      EM4100.xorList [r1.d2, r2.d2, r3.d2, r4.d2, r5.d2,
        r6.d2, r7.d2, r8.d2, r9.d2, r10.d2] := by
    rw [q4, p4]
    simp [EM4100.Par6.zero, EM4100.xorList]
  have ha3 : (EM4100.add_bits (EM4100.add_bits s
      (EM4100.rowsBits [r1, r2, r3, r4, r5, r6, r7, r8, r9])).1
      (EM4100.rowBits r10)).1.data_col_parity.a3 =
      EM4100.xorList [r1.d3, r2.d3, r3.d3, r4.d3, r5.d3,
        r6.d3, r7.d3, r8.d3, r9.d3, r10.d3] := by
    rw [q4, p4]
    simp [EM4100.Par6.zero, EM4100.xorList]
  have ha4 : (EM4100.add_bits (EM4100.add_bits s
      (EM4100.rowsBits [r1, r2, r3, r4, r5, r6, r7, r8, r9])).1
      (EM4100.rowBits r10)).1.data_col_parity.a4 =
      EM4100.xorList [r1.d4, r2.d4, r3.d4, r4.d4, r5.d4,
        r6.d4, r7.d4, r8.d4, r9.d4, r10.d4] := by
    rw [q4, p4]
    simp [EM4100.Par6.zero, EM4100.xorList]
  obtain ⟨w1, w2, w3, w4, w5, w6⟩ :=
    em_trailer_run (EM4100.add_bits (EM4100.add_bits s
      (EM4100.rowsBits [r1, r2, r3, r4, r5, r6, r7, r8, r9])).1
      (EM4100.rowBits r10)).1 t1 t2 t3 t4 t5 q1 q2 q3
  refine ⟨q1, ?_, ?_, w1, w2, w3, w4, w5⟩
  · rw [w6, ha1, ha2, ha3, ha4]
  · intro hcond
    obtain ⟨f1, f2, f3, f4⟩ := hcond
    obtain ⟨-, -, -, -, -, v1⟩ :=
      em_trailer_run (EM4100.add_bits (EM4100.add_bits s
        (EM4100.rowsBits [r1, r2, r3, r4, r5, r6, r7, r8, r9])).1
        (EM4100.rowBits r10)).1 (!t1) t2 t3 t4 t5 q1 q2 q3
    obtain ⟨-, -, -, -, -, v2⟩ :=
      em_trailer_run (EM4100.add_bits (EM4100.add_bits s
        (EM4100.rowsBits [r1, r2, r3, r4, r5, r6, r7, r8, r9])).1
        (EM4100.rowBits r10)).1 t1 (!t2) t3 t4 t5 q1 q2 q3
    obtain ⟨-, -, -, -, -, v3⟩ :=
      em_trailer_run (EM4100.add_bits (EM4100.add_bits s
        (EM4100.rowsBits [r1, r2, r3, r4, r5, r6, r7, r8, r9])).1
        (EM4100.rowBits r10)).1 t1 t2 (!t3) t4 t5 q1 q2 q3
    obtain ⟨-, -, -, -, -, v4⟩ :=
      em_trailer_run (EM4100.add_bits (EM4100.add_bits s
        (EM4100.rowsBits [r1, r2, r3, r4, r5, r6, r7, r8, r9])).1
        (EM4100.rowBits r10)).1 t1 t2 t3 (!t4) t5 q1 q2 q3
    refine ⟨?_, ?_, ?_, ?_⟩
    · rw [v1]
      simp [ha1, f1]
    · rw [v2]
      simp [ha2, f2]
    · rw [v3]
      simp [ha3, f3]
    · rw [v4]
      simp [ha4, f4]

/-- Witness for C5: the all-zero frame, whose column parities are all zero
and match all-zero trailer bits. -/
theorem em_column_parity_verdict_witness :
    (EM4100.add_bits { EM4100.initState with state := "PAYLOAD" }
      (EM4100.rowsBits [EM4100.zeroRow, EM4100.zeroRow, EM4100.zeroRow, EM4100.zeroRow, EM4100.zeroRow, EM4100.zeroRow, EM4100.zeroRow, EM4100.zeroRow, EM4100.zeroRow, EM4100.zeroRow])).1.state =
      "TRAILER" ∧
    EM4100.cls6Texts (EM4100.add_bits (EM4100.add_bits { EM4100.initState with state := "PAYLOAD" }
        (EM4100.rowsBits [EM4100.zeroRow, EM4100.zeroRow, EM4100.zeroRow, EM4100.zeroRow, EM4100.zeroRow, EM4100.zeroRow, EM4100.zeroRow, EM4100.zeroRow, EM4100.zeroRow, EM4100.zeroRow])).1
        (EM4100.trailerBits false false false false false)).2 =
      [if EM4100.xorList [EM4100.zeroRow.d1, EM4100.zeroRow.d1, EM4100.zeroRow.d1, EM4100.zeroRow.d1, EM4100.zeroRow.d1,
            EM4100.zeroRow.d1, EM4100.zeroRow.d1, EM4100.zeroRow.d1, EM4100.zeroRow.d1, EM4100.zeroRow.d1] = false ∧
          EM4100.xorList [EM4100.zeroRow.d2, EM4100.zeroRow.d2, EM4100.zeroRow.d2, EM4100.zeroRow.d2, EM4100.zeroRow.d2,
            EM4100.zeroRow.d2, EM4100.zeroRow.d2, EM4100.zeroRow.d2, EM4100.zeroRow.d2, EM4100.zeroRow.d2] = false ∧
          EM4100.xorList [EM4100.zeroRow.d3, EM4100.zeroRow.d3, EM4100.zeroRow.d3, EM4100.zeroRow.d3, EM4100.zeroRow.d3,
            EM4100.zeroRow.d3, EM4100.zeroRow.d3, EM4100.zeroRow.d3, EM4100.zeroRow.d3, EM4100.zeroRow.d3] = false ∧
          EM4100.xorList [EM4100.zeroRow.d4, EM4100.zeroRow.d4, EM4100.zeroRow.d4, EM4100.zeroRow.d4, EM4100.zeroRow.d4,
            EM4100.zeroRow.d4, EM4100.zeroRow.d4, EM4100.zeroRow.d4, EM4100.zeroRow.d4, EM4100.zeroRow.d4] = false
       then ["OK", "O"] else ["ERROR", "ERR", "ER", "E"]] ∧
    ((EM4100.xorList [EM4100.zeroRow.d1, EM4100.zeroRow.d1, EM4100.zeroRow.d1, EM4100.zeroRow.d1, EM4100.zeroRow.d1,
          EM4100.zeroRow.d1, EM4100.zeroRow.d1, EM4100.zeroRow.d1, EM4100.zeroRow.d1, EM4100.zeroRow.d1] = false ∧
      EM4100.xorList [EM4100.zeroRow.d2, EM4100.zeroRow.d2, EM4100.zeroRow.d2, EM4100.zeroRow.d2, EM4100.zeroRow.d2,
          EM4100.zeroRow.d2, EM4100.zeroRow.d2, EM4100.zeroRow.d2, EM4100.zeroRow.d2, EM4100.zeroRow.d2] = false ∧
      EM4100.xorList [EM4100.zeroRow.d3, EM4100.zeroRow.d3, EM4100.zeroRow.d3, EM4100.zeroRow.d3, EM4100.zeroRow.d3,
          EM4100.zeroRow.d3, EM4100.zeroRow.d3, EM4100.zeroRow.d3, EM4100.zeroRow.d3, EM4100.zeroRow.d3] = false ∧
      EM4100.xorList [EM4100.zeroRow.d4, EM4100.zeroRow.d4, EM4100.zeroRow.d4, EM4100.zeroRow.d4, EM4100.zeroRow.d4,
          EM4100.zeroRow.d4, EM4100.zeroRow.d4, EM4100.zeroRow.d4, EM4100.zeroRow.d4, EM4100.zeroRow.d4] = false) →
      (EM4100.cls6Texts (EM4100.add_bits (EM4100.add_bits { EM4100.initState with state := "PAYLOAD" }
          (EM4100.rowsBits [EM4100.zeroRow, EM4100.zeroRow, EM4100.zeroRow, EM4100.zeroRow, EM4100.zeroRow, EM4100.zeroRow, EM4100.zeroRow, EM4100.zeroRow, EM4100.zeroRow, EM4100.zeroRow])).1
          (EM4100.trailerBits (!false) false false false false)).2 =
        [["ERROR", "ERR", "ER", "E"]] ∧
       EM4100.cls6Texts (EM4100.add_bits (EM4100.add_bits { EM4100.initState with state := "PAYLOAD" }
          (EM4100.rowsBits [EM4100.zeroRow, EM4100.zeroRow, EM4100.zeroRow, EM4100.zeroRow, EM4100.zeroRow, EM4100.zeroRow, EM4100.zeroRow, EM4100.zeroRow, EM4100.zeroRow, EM4100.zeroRow])).1
          (EM4100.trailerBits false (!false) false false false)).2 =
        [["ERROR", "ERR", "ER", "E"]] ∧
       EM4100.cls6Texts (EM4100.add_bits (EM4100.add_bits { EM4100.initState with state := "PAYLOAD" }
          (EM4100.rowsBits [EM4100.zeroRow, EM4100.zeroRow, EM4100.zeroRow, EM4100.zeroRow, EM4100.zeroRow, EM4100.zeroRow, EM4100.zeroRow, EM4100.zeroRow, EM4100.zeroRow, EM4100.zeroRow])).1
          (EM4100.trailerBits false false (!false) false false)).2 =
        [["ERROR", "ERR", "ER", "E"]] ∧
       EM4100.cls6Texts (EM4100.add_bits (EM4100.add_bits { EM4100.initState with state := "PAYLOAD" }
          (EM4100.rowsBits [EM4100.zeroRow, EM4100.zeroRow, EM4100.zeroRow, EM4100.zeroRow, EM4100.zeroRow, EM4100.zeroRow, EM4100.zeroRow, EM4100.zeroRow, EM4100.zeroRow, EM4100.zeroRow])).1
          (EM4100.trailerBits false false false (!false) false)).2 =
        [["ERROR", "ERR", "ER", "E"]])) ∧
    (EM4100.add_bits (EM4100.add_bits { EM4100.initState with state := "PAYLOAD" }
        (EM4100.rowsBits [EM4100.zeroRow, EM4100.zeroRow, EM4100.zeroRow, EM4100.zeroRow, EM4100.zeroRow, EM4100.zeroRow, EM4100.zeroRow, EM4100.zeroRow, EM4100.zeroRow, EM4100.zeroRow])).1
        (EM4100.trailerBits false false false false false)).1.state = "HEADER" ∧
    (EM4100.add_bits (EM4100.add_bits { EM4100.initState with state := "PAYLOAD" }
        (EM4100.rowsBits [EM4100.zeroRow, EM4100.zeroRow, EM4100.zeroRow, EM4100.zeroRow, EM4100.zeroRow, EM4100.zeroRow, EM4100.zeroRow, EM4100.zeroRow, EM4100.zeroRow, EM4100.zeroRow])).1
        (EM4100.trailerBits false false false false false)).1.payload_cnt = 0 ∧
    (EM4100.add_bits (EM4100.add_bits { EM4100.initState with state := "PAYLOAD" }
        (EM4100.rowsBits [EM4100.zeroRow, EM4100.zeroRow, EM4100.zeroRow, EM4100.zeroRow, EM4100.zeroRow, EM4100.zeroRow, EM4100.zeroRow, EM4100.zeroRow, EM4100.zeroRow, EM4100.zeroRow])).1
        (EM4100.trailerBits false false false false false)).1.data_bits = 0 ∧
    (EM4100.add_bits (EM4100.add_bits { EM4100.initState with state := "PAYLOAD" }
        (EM4100.rowsBits [EM4100.zeroRow, EM4100.zeroRow, EM4100.zeroRow, EM4100.zeroRow, EM4100.zeroRow, EM4100.zeroRow, EM4100.zeroRow, EM4100.zeroRow, EM4100.zeroRow, EM4100.zeroRow])).1
        (EM4100.trailerBits false false false false false)).1.data_col_parity =
      EM4100.Par6.zero ∧
    (EM4100.add_bits (EM4100.add_bits { EM4100.initState with state := "PAYLOAD" }
        (EM4100.rowsBits [EM4100.zeroRow, EM4100.zeroRow, EM4100.zeroRow, EM4100.zeroRow, EM4100.zeroRow, EM4100.zeroRow, EM4100.zeroRow, EM4100.zeroRow, EM4100.zeroRow, EM4100.zeroRow])).1
        (EM4100.trailerBits false false false false false)).1.col_parity = EM4100.Par6.zero :=
  em_column_parity_verdict { EM4100.initState with state := "PAYLOAD" }
    EM4100.zeroRow EM4100.zeroRow EM4100.zeroRow EM4100.zeroRow EM4100.zeroRow
    EM4100.zeroRow EM4100.zeroRow EM4100.zeroRow EM4100.zeroRow EM4100.zeroRow
    false false false false false rfl rfl rfl rfl
